import Mathlib

/-!
Verification development for the recipe_api user-account backend.

The definitions below are a shallow embedding of the repository's account
code:

* `src/core/models.py` — `UserManager.create_user`, `UserManager.create_superuser`
  and the `User` model (email, name, password, is_active, is_staff,
  is_superuser with their defaults);
* `src/user/serializers.py` — `UserSerializer` (fields email/password/name,
  password write_only with min_length 5, custom `create`, and the *default*
  ModelSerializer `update`, which the class does not override) and
  `CustomTokenObtainPairSerializer` (`get_token`, `validate`);
* `src/user/views.py` — `CreateUserView` (create) and `ManageUserView`
  (retrieve/update of `request.user`).

Framework collaborators are embedded by their documented semantics where the
repository relies on them: Django's `BaseUserManager.normalize_email`
(strip, split at the last `@`, lower-case the domain part),
`set_password`/`check_password` (one-way salted hashing, abstracted by an
explicit hash-function parameter `hashFn`; a password column holding a value
not produced by the hasher never verifies), the DRF default
`ModelSerializer.update` (plain attribute assignment of every validated
field), and simplejwt's token pair construction (refresh token from
`get_token`, access token copying every claim of the refresh payload except
`token_type`, `exp` and `jti`).

The store is a list of persisted `User` records; the unique constraint on
`email` is checked at save time.
-/

namespace RecipeApi

/-- A Python value as it may arrive in the `email` argument of
`create_user`: a string, an integer, or Python `None`. -/
inductive PyVal where
  | str (s : String)
  | int (n : Int)
  | none
deriving DecidableEq, Repr

/-- Python truthiness for the values of `PyVal`: the empty string, `0` and
`None` are falsy, everything else truthy (`if not email:` in
`create_user`). -/
def PyVal.truthy : PyVal → Bool
  | .str s => !s.isEmpty
  | .int n => n != 0
  | .none => false

/-- Python `isinstance(v, str)`. -/
def PyVal.isStr : PyVal → Bool
  | .str _ => true
  | _ => false

/-- Python `str.strip()` on a character list: drop leading and trailing
whitespace. -/
def stripChars (cs : List Char) : List Char :=
  ((cs.dropWhile Char.isWhitespace).reverse.dropWhile Char.isWhitespace).reverse

/-- Python `str.strip()`. -/
def strip (s : String) : String :=
  String.mk (stripChars s.data)

/-- Python `str.lower()`: lower-case every character. -/
def lowerString (s : String) : String :=
  String.mk (s.data.map Char.toLower)

/-- Split a string at the LAST occurrence of `c`: Python
`s.rsplit(c, 1)` when it yields two parts, `none` when `c` does not occur. -/
def rsplitLast (s : String) (c : Char) : Option (String × String) :=
  match s.data.reverse.dropWhile (fun x => x != c) with
  | [] => Option.none
  | _ :: before =>
      Option.some (String.mk before.reverse,
        String.mk ((s.data.reverse.takeWhile (fun x => x != c)).reverse))

/-- Django `BaseUserManager.normalize_email`: strip surrounding whitespace,
split at the last `@`; when an `@` is present, rebuild the address with the
domain part lower-cased and the local part untouched; otherwise return the
input unchanged. -/
def normalize_email (email : String) : String :=
  match rsplitLast (strip email) '@' with
  | Option.some (localPart, domainPart) => localPart ++ "@" ++ lowerString domainPart
  | Option.none => email

/-- The content of the `password` column, discriminated the way Django's
`check_password` discriminates it by format: a value produced by the hasher
(`hashed`), the unusable marker `set_password(None)` writes (`unusable`), or
any other string assigned to the column directly (`raw`) — such a value is
not in the hasher's encoded format, so `identify_hasher` rejects it and
verification returns false. -/
inductive StoredCred where
  | hashed (h : String)
  | unusable
  | raw (s : String)
deriving DecidableEq, Repr

/-- Django `AbstractBaseUser.set_password` / `make_password`: a present
plaintext is run through the one-way hasher `hashFn`; `None` stores the
unusable marker. -/
def set_password (hashFn : String → String) (password : Option String) : StoredCred :=
  match password with
  | Option.some p => StoredCred.hashed (hashFn p)
  | Option.none => StoredCred.unusable

/-- Django `check_password`: hash the candidate and compare with the stored
encoded value; an unusable or non-hasher-formatted stored value never
verifies. -/
def check_password (hashFn : String → String) (candidate : String) : StoredCred → Bool
  | StoredCred.hashed h => hashFn candidate == h
  | StoredCred.unusable => false
  | StoredCred.raw _ => false

/-- The persisted `User` record of `src/core/models.py`: email (unique),
name, password column, and the three status flags. -/
structure User where
  email : String
  name : String
  password : StoredCred
  is_active : Bool
  is_staff : Bool
  is_superuser : Bool
deriving DecidableEq, Repr

/-- Errors `create_user` can raise before or at persistence:
`missingEmail` is the `ValueError` for a falsy email, `invalidEmailType`
the `TypeError` for a truthy non-string email, `duplicateEmail` the unique
constraint violation at save. -/
inductive CreateErr where
  | missingEmail
  | invalidEmailType
  | duplicateEmail
deriving DecidableEq, Repr

/-- The message attached to each creation error in the source. -/
def CreateErr.message : CreateErr → String
  | .missingEmail => "Email must be provided."
  | .invalidEmailType => "Email must be an string."
  | .duplicateEmail => "user with this email already exists."

instance exceptDecEq {ε α : Type} [DecidableEq ε] [DecidableEq α] :
    DecidableEq (Except ε α) := fun a b =>
  match a, b with
  | Except.ok x, Except.ok y =>
      if h : x = y then Decidable.isTrue (by rw [h])
      else Decidable.isFalse (by intro hc; cases hc; exact h rfl)
  | Except.error e, Except.error f =>
      if h : e = f then Decidable.isTrue (by rw [h])
      else Decidable.isFalse (by intro hc; cases hc; exact h rfl)
  | Except.ok _, Except.error _ => Decidable.isFalse (by intro hc; cases hc)
  | Except.error _, Except.ok _ => Decidable.isFalse (by intro hc; cases hc)

/-- The account store: the list of persisted records. -/
abbrev Store := List User

/-- Persist a fresh record, enforcing the unique constraint on `email`. -/
def save (db : Store) (u : User) : Except CreateErr Store :=
  if db.any (fun v => v.email == u.email) then Except.error CreateErr.duplicateEmail
  else Except.ok (db ++ [u])

/-- Re-persist an already saved record, keyed by its previous email. -/
def saveUpdate (db : Store) (oldEmail : String) (u : User) : Store :=
  db.map (fun v => if v.email == oldEmail then u else v)

/-- `UserManager.create_user`: reject a falsy email (`ValueError`), then a
non-string email (`TypeError`); otherwise build the record with the
normalized email, the model defaults (`is_active := true`,
`is_staff := false`, `is_superuser := false`), hash the password via
`set_password`, and save. The extra field `name` is passed through to the
model as `create_user(**extra_fields)` does. -/
def create_user (hashFn : String → String) (db : Store) (email : PyVal)
    (password : Option String) (name : String) : Except CreateErr (User × Store) :=
  if !email.truthy then Except.error CreateErr.missingEmail
  else
    match email with
    | .str s =>
        let u : User :=
          { email := normalize_email s
            name := name
            password := set_password hashFn password
            is_active := true
            is_staff := false
            is_superuser := false }
        match save db u with
        | Except.ok db2 => Except.ok (u, db2)
        | Except.error e => Except.error e
    | _ => Except.error CreateErr.invalidEmailType

/-- `UserManager.create_superuser`: delegate to `create_user` (empty extra
fields, so `name` is the model default `""`), then set both elevation flags
and save again. -/
def create_superuser (hashFn : String → String) (db : Store) (email : PyVal)
    (password : Option String) : Except CreateErr (User × Store) :=
  match create_user hashFn db email password "" with
  | Except.error e => Except.error e
  | Except.ok (u, db1) =>
      let u2 : User := { u with is_staff := true, is_superuser := true }
      Except.ok (u2, saveUpdate db1 u.email u2)

/-- The body of a POST to the create endpoint, after DRF field parsing:
the three serializer fields of `UserSerializer.Meta.fields`. -/
structure CreatePayload where
  email : String
  password : String
  name : String
deriving DecidableEq, Repr

/-- A field-scoped validation error as DRF reports it: field name and
message. -/
structure FieldError where
  field : String
  message : String
deriving DecidableEq, Repr

/-- `UserSerializer` validation on create, following DRF
`CharField.run_validation` with the default `trim_whitespace = True`
(which `extra_kwargs` does not disable): input that is empty or
whitespace-only fails the required/blank check with
"This field may not be blank."; otherwise the value is whitespace-trimmed
by `to_internal_value` and the validators run on the TRIMMED value —
`password` carries `min_length 5` (`extra_kwargs`) with DRF message
"Ensure this field has at least 5 characters.", and the unique constraint
on the model's `email` field adds a `UniqueValidator` with message
"user with this email already exists.". -/
def user_serializer_validate (db : Store) (p : CreatePayload) : List FieldError :=
  (if (strip p.email).isEmpty then [⟨"email", "This field may not be blank."⟩] else []) ++
    (if db.any (fun u => u.email == strip p.email) then
      [⟨"email", "user with this email already exists."⟩] else []) ++
    (if (strip p.password).isEmpty then [⟨"password", "This field may not be blank."⟩]
     else if (strip p.password).length < 5 then
      [⟨"password", "Ensure this field has at least 5 characters."⟩] else []) ++
    (if (strip p.name).isEmpty then [⟨"name", "This field may not be blank."⟩] else [])

/-- `CreateUserView` (a DRF `CreateAPIView` over `UserSerializer`): run the
serializer's validation; on failure answer 400 with the field errors and
leave the store untouched; on success call
`get_user_model().objects.create_user(**validated_data)`
(`UserSerializer.create`); `validated_data` holds the whitespace-trimmed
field values (`to_internal_value` of each `CharField`). -/
def create_user_view (hashFn : String → String) (db : Store) (p : CreatePayload) :
    Except (List FieldError) User × Store :=
  if (user_serializer_validate db p).isEmpty then
    match create_user hashFn db (.str (strip p.email))
        (Option.some (strip p.password)) (strip p.name) with
    | Except.ok (u, db2) => (Except.ok u, db2)
    | Except.error e => (Except.error [⟨"email", e.message⟩], db)
  else (Except.error (user_serializer_validate db p), db)

/-- A PATCH body for the self-service endpoint: a partial update may carry
any subset of the serializer's writable fields — and `email` IS one of
`UserSerializer.Meta.fields`, with no `read_only` marking. -/
structure UserPatch where
  email : Option String
  name : Option String
  password : Option String
deriving DecidableEq, Repr

/-- The update `ManageUserView` performs through `UserSerializer`:
the class defines no `update`, so DRF's default `ModelSerializer.update`
runs — `setattr(instance, attr, value)` for every validated field, then
`instance.save()`. In particular a supplied password is assigned to the
password column VERBATIM (`StoredCred.raw`), not run through
`set_password`. -/
def user_serializer_update (u : User) (p : UserPatch) : User :=
  let u1 := match p.email with
    | Option.some e => { u with email := e }
    | Option.none => u
  let u2 := match p.password with
    | Option.some pw => { u1 with password := StoredCred.raw pw }
    | Option.none => u1
  match p.name with
  | Option.some n => { u2 with name := n }
  | Option.none => u2

/-- Validation of a PATCH body: only the supplied fields are validated
(partial update), with the same DRF `CharField` semantics as on create —
empty or whitespace-only input is blank, and the `min_length 5` validator
for `password` runs on the trimmed value. -/
def user_patch_validate (p : UserPatch) : List FieldError :=
  (match p.email with
   | Option.some e =>
      if (strip e).isEmpty then [⟨"email", "This field may not be blank."⟩] else []
   | Option.none => []) ++
    (match p.password with
     | Option.some pw =>
        if (strip pw).isEmpty then [⟨"password", "This field may not be blank."⟩]
        else if (strip pw).length < 5 then
          [⟨"password", "Ensure this field has at least 5 characters."⟩] else []
     | Option.none => []) ++
    (match p.name with
     | Option.some n =>
        if (strip n).isEmpty then [⟨"name", "This field may not be blank."⟩] else []
     | Option.none => [])

/-- The whitespace-trimming every supplied `CharField` value undergoes in
`to_internal_value` before it reaches `validated_data`. -/
def trimPatch (p : UserPatch) : UserPatch :=
  ⟨p.email.map strip, p.name.map strip, p.password.map strip⟩

/-- `ManageUserView` PATCH (`update_self`): the authenticated `request.user`
is the instance (`get_object`); validate the partial body, then apply the
serializer update with the trimmed `validated_data` and re-persist. On
validation failure the store is untouched. -/
def manage_user_patch (db : Store) (u : User) (p : UserPatch) :
    Except (List FieldError) (User × Store) :=
  if (user_patch_validate p).isEmpty then
    Except.ok (user_serializer_update u (trimPatch p),
      saveUpdate db u.email (user_serializer_update u (trimPatch p)))
  else Except.error (user_patch_validate p)

/-- `ManageUserView` GET (`get_self`): the projection the serializer reads
back — `password` is `write_only`, so exactly name and email are
returned. -/
def manage_user_get (u : User) : String × String :=
  (u.name, u.email)

/-- A JWT payload as an association list of claims (simplejwt keeps the
payload as a Python dict; claim values relevant here are strings). -/
abbrev Claims := List (String × String)

/-- Dict assignment `token[k] = v`: replace the value at an existing key,
append a fresh key at the end. -/
def setClaim (t : Claims) (k v : String) : Claims :=
  match t with
  | [] => [(k, v)]
  | kv :: rest => if kv.1 == k then (k, v) :: rest else kv :: setClaim rest k v

/-- Dict lookup `token[k]` as an `Option`. -/
def getClaim (t : Claims) (k : String) : Option String :=
  match t with
  | [] => Option.none
  | kv :: rest => if kv.1 == k then Option.some kv.2 else getClaim rest k

/-- Assign every pair of `l` into `acc` in order (the copy loop of
simplejwt's `access_token` property). -/
def mergeClaims (acc : Claims) : Claims → Claims
  | [] => acc
  | kv :: rest => mergeClaims (setClaim acc kv.1 kv.2) rest

/-- `CustomTokenObtainPairSerializer.get_token`: take the library refresh
token `super().get_token(user)` — its standard payload `std` carries the
time-bounded validity claims (`token_type`, `exp`, `jti`) and the user id —
then set the two custom claims from the account. -/
def get_token (std : Claims) (u : User) : Claims :=
  setClaim (setClaim std "user_email" u.email) "user_name" u.name

/-- simplejwt `RefreshToken.access_token`: a fresh access payload
`accessStd` (its own `token_type`, `exp`, `jti`), into which every claim of
the refresh payload is copied except `token_type`, `exp` and `jti`. -/
def access_token (accessStd : Claims) (refresh : Claims) : Claims :=
  mergeClaims accessStd
    (refresh.filter (fun kv => kv.1 != "token_type" && kv.1 != "exp" && kv.1 != "jti"))

/-- Django `ModelBackend.authenticate` over the store: look the account up
by the username field (`email`, exact match), check the password, and
require `is_active` (`user_can_authenticate`); any failure yields `None`. -/
def authenticate (hashFn : String → String) (db : Store) (email password : String) :
    Option User :=
  match db.find? (fun u => u.email == email) with
  | Option.none => Option.none
  | Option.some u =>
      if check_password hashFn password u.password && u.is_active then Option.some u
      else Option.none

/-- What token issuance can fail with: a blank-field serializer error
(400), or the uniform `AuthenticationFailed` of
`TokenObtainSerializer.validate` (401). -/
inductive IssueErr where
  | blank (field : String) (message : String)
  | authFailed (message : String)
deriving DecidableEq, Repr

/-- The response of a successful POST to the token endpoint:
the serialized refresh and access payloads plus the two fields
`CustomTokenObtainPairSerializer.validate` adds to the response body. -/
structure TokenPairData where
  refresh : Claims
  access : Claims
  user_name : String
  user_email : String
deriving DecidableEq, Repr

/-- Token issuance (`CustomTokenObtainPairSerializer.validate`): the two
serializer fields are required non-blank; `authenticate` resolves the
account; when the user-authentication rule fails the one uniform
`AuthenticationFailed` is raised; on success the refresh token is built by
`get_token` and the access token derived from it, and the account's name
and email are added to the response data. -/
def issue (hashFn : String → String) (std accessStd : Claims) (db : Store)
    (email password : String) : Except IssueErr TokenPairData :=
  if email.isEmpty then Except.error (IssueErr.blank "email" "This field may not be blank.")
  else if password.isEmpty then
    Except.error (IssueErr.blank "password" "This field may not be blank.")
  else
    match authenticate hashFn db email password with
    | Option.none =>
        Except.error (IssueErr.authFailed "No active account found with the given credentials")
    | Option.some u =>
        let refresh := get_token std u
        Except.ok ⟨refresh, access_token accessStd refresh, u.name, u.email⟩

/-! ### Shared helper lemmas -/

/-- A concrete stand-in for the one-way hasher, used by concrete witnesses
and counterexamples only. -/
def demoHash : String → String :=
  fun s => "pbkdf2_sha256$demo$" ++ s

/-- The account of the repository's own tests, as `create_user` persists
it. -/
def demoCreated : User :=
  { email := "test@example.com", name := "Test Name",
    password := StoredCred.hashed (demoHash "testpass123"),
    is_active := true, is_staff := false, is_superuser := false }

/-- The record `create_superuser` persists for the tests' superuser. -/
def demoSuper : User :=
  { email := "super@example.com", name := "",
    password := StoredCred.hashed (demoHash "test123"),
    is_active := true, is_staff := true, is_superuser := true }

/-- `demoCreated` after the self-service PATCH of the repository's
`test_update_user_profile`. -/
def demoUpdated : User :=
  { demoCreated with
    name := "Updated Name",
    password := StoredCred.raw "newpassword123" }

/-- An inactive account. -/
def demoInactive : User :=
  { email := "inactive@example.com", name := "Inactive",
    password := StoredCred.hashed (demoHash "testpass123"),
    is_active := false, is_staff := false, is_superuser := false }

/-- The standard payload of a refresh token as the library builds it
(`token_type`, time-bounded validity claims, user id). -/
def demoRefreshStd : Claims :=
  [("token_type", "refresh"), ("exp", "1700000600"), ("jti", "r1"), ("user_id", "1")]

/-- The standard payload of a fresh access token. -/
def demoAccessStd : Claims :=
  [("token_type", "access"), ("exp", "1700000300"), ("jti", "a1")]

/-- The token pair issued for `demoCreated` with the demo standard
payloads. -/
def demoPair : TokenPairData :=
  { refresh := [("token_type", "refresh"), ("exp", "1700000600"), ("jti", "r1"),
      ("user_id", "1"), ("user_email", "test@example.com"), ("user_name", "Test Name")],
    access := [("token_type", "access"), ("exp", "1700000300"), ("jti", "a1"),
      ("user_id", "1"), ("user_email", "test@example.com"), ("user_name", "Test Name")],
    user_name := "Test Name",
    user_email := "test@example.com" }

/-- The credential invariant the spec states for the password column: the
stored value is the hasher's output for some secret, or the unusable
marker — never anything else. -/
def hashedOrUnusable (hashFn : String → String) (c : StoredCred) : Prop :=
  (∃ s, c = StoredCred.hashed (hashFn s)) ∨ c = StoredCred.unusable

theorem takeWhile_append_all {α : Type} (p : α → Bool) (a b : List α)
    (h : ∀ x ∈ a, p x = true) : (a ++ b).takeWhile p = a ++ b.takeWhile p := by
  induction a with
  | nil => simp
  | cons x xs ih =>
      have hx : p x = true := h x (by simp)
      simp only [List.cons_append, List.takeWhile_cons, hx, if_true]
      rw [ih (fun y hy => h y (by simp [hy]))]

theorem dropWhile_append_all {α : Type} (p : α → Bool) (a b : List α)
    (h : ∀ x ∈ a, p x = true) : (a ++ b).dropWhile p = b.dropWhile p := by
  induction a with
  | nil => simp
  | cons x xs ih =>
      have hx : p x = true := h x (by simp)
      simp only [List.cons_append, List.dropWhile_cons, hx, if_true]
      exact ih (fun y hy => h y (by simp [hy]))

/-- Splitting `local ++ "@" ++ domain` at the last `@` recovers the two
parts when the domain holds no `@`. -/
theorem rsplitLast_concat (l d : String) (h : ∀ c ∈ d.data, (c != '@') = true) :
    rsplitLast (l ++ "@" ++ d) '@' = Option.some (l, d) := by
  have hdata : (l ++ "@" ++ d).data = (l.data ++ ['@']) ++ d.data := by
    rw [String.data_append, String.data_append]
  have hrev : (l ++ "@" ++ d).data.reverse = d.data.reverse ++ ('@' :: l.data.reverse) := by
    rw [hdata, List.reverse_append, List.reverse_append]
    simp
  have hrevmem : ∀ c ∈ d.data.reverse, (c != '@') = true := by
    intro c hc
    exact h c (List.mem_reverse.mp hc)
  unfold rsplitLast
  rw [hrev, dropWhile_append_all _ _ _ hrevmem, takeWhile_append_all _ _ _ hrevmem]
  simp

/-- `normalize_email` on `local ++ "@" ++ domain` lower-cases exactly the
domain when the input carries no surrounding whitespace and the domain no
`@`. -/
theorem normalize_email_concat (l d : String)
    (ht : strip (l ++ "@" ++ d) = l ++ "@" ++ d)
    (h : ∀ c ∈ d.data, (c != '@') = true) :
    normalize_email (l ++ "@" ++ d) = l ++ "@" ++ lowerString d := by
  unfold normalize_email
  rw [ht, rsplitLast_concat l d h]

/-- A string holding an `@` is not empty. -/
theorem concat_at_isEmpty (l d : String) : (l ++ "@" ++ d).isEmpty = false := by
  by_contra hne
  have h1 : (l ++ "@" ++ d).isEmpty = true := by
    cases h2 : (l ++ "@" ++ d).isEmpty with
    | true => rfl
    | false => exact absurd h2 hne
  have h3 : l ++ "@" ++ d = "" := (String.isEmpty_iff _).mp h1
  have h4 : (l ++ "@" ++ d).data = ([] : List Char) := by rw [h3]
  rw [String.data_append, String.data_append] at h4
  simp at h4

/-- The shape of every record `create_user` returns on success. -/
theorem create_user_ok_eq (hashFn : String → String) (db : Store) (s : String)
    (pwd : Option String) (name : String) (u : User) (db2 : Store)
    (h : create_user hashFn db (.str s) pwd name = Except.ok (u, db2)) :
    u = { email := normalize_email s, name := name,
          password := set_password hashFn pwd,
          is_active := true, is_staff := false, is_superuser := false } ∧
      db2 = db ++ [u] := by
  unfold create_user at h
  by_cases hemp : s.isEmpty
  · simp [PyVal.truthy, hemp] at h
  · simp only [PyVal.truthy, hemp, Bool.not_false, Bool.not_true, if_false] at h
    unfold save at h
    by_cases hdup : db.any (fun v => v.email == normalize_email s)
    · simp [hdup] at h
    · simp only [hdup, Bool.false_eq_true, if_false, Except.ok.injEq, Prod.mk.injEq] at h
      obtain ⟨hu, hdb⟩ := h
      subst hu
      exact ⟨rfl, hdb.symm⟩

theorem getClaim_setClaim_same (t : Claims) (k v : String) :
    getClaim (setClaim t k v) k = Option.some v := by
  induction t with
  | nil => simp [setClaim, getClaim]
  | cons kv rest ih =>
      by_cases h : kv.1 == k
      · simp [setClaim, getClaim, h]
      · simp [setClaim, getClaim, h, ih]

theorem getClaim_setClaim_other (t : Claims) (k v k2 : String) (h : k2 ≠ k) :
    getClaim (setClaim t k v) k2 = getClaim t k2 := by
  induction t with
  | nil => simp [setClaim, getClaim, Ne.symm h]
  | cons kv rest ih =>
      by_cases hk : kv.1 == k
      · have hk1 : kv.1 = k := by simp_all
        simp [setClaim, getClaim, hk, hk1, Ne.symm h]
      · simp [setClaim, getClaim, hk, ih]

theorem setClaim_not_mem (t : Claims) (k v : String) (h : ∀ kv ∈ t, kv.1 ≠ k) :
    setClaim t k v = t ++ [(k, v)] := by
  induction t with
  | nil => simp [setClaim]
  | cons kv rest ih =>
      have hne : (kv.1 == k) = false := by simp [h kv (by simp)]
      simp [setClaim, hne, ih (fun x hx => h x (by simp [hx]))]

theorem getClaim_append_not_mem (a b : Claims) (k : String) (h : ∀ kv ∈ a, kv.1 ≠ k) :
    getClaim (a ++ b) k = getClaim b k := by
  induction a with
  | nil => simp
  | cons kv rest ih =>
      have hne : (kv.1 == k) = false := by simp [h kv (by simp)]
      simp only [List.cons_append, getClaim, hne, Bool.false_eq_true, if_false]
      exact ih (fun x hx => h x (by simp [hx]))

theorem mergeClaims_append (acc a b : Claims) :
    mergeClaims acc (a ++ b) = mergeClaims (mergeClaims acc a) b := by
  induction a generalizing acc with
  | nil => simp [mergeClaims]
  | cons kv rest ih => simp [mergeClaims, ih]

theorem getClaim_mergeClaims_not_mem (acc l : Claims) (k : String)
    (h : ∀ kv ∈ l, kv.1 ≠ k) : getClaim (mergeClaims acc l) k = getClaim acc k := by
  induction l generalizing acc with
  | nil => rfl
  | cons kv rest ih =>
      rw [mergeClaims, ih _ (fun x hx => h x (by simp [hx])),
        getClaim_setClaim_other _ _ _ _ (Ne.symm (h kv (by simp)))]

/-- `create_user` succeeds only on a string email. -/
theorem create_user_ok_str (hashFn : String → String) (db : Store) (email : PyVal)
    (pwd : Option String) (name : String) (u : User) (db2 : Store)
    (h : create_user hashFn db email pwd name = Except.ok (u, db2)) :
    ∃ s, email = PyVal.str s := by
  cases email with
  | str s => exact ⟨s, rfl⟩
  | int n =>
      unfold create_user at h
      by_cases hn : (PyVal.int n).truthy <;> simp [hn] at h
  | none =>
      unfold create_user at h
      simp [PyVal.truthy] at h

/-! ### Claim theorems -/

/-- C4, counterexample. The claim says EVERY non-string email fails with
the InvalidEmailType error; but for the numeric email `0` — falsy in
Python — the `if not email` check fires first, so both `create_user` and
`create_superuser` raise the MissingEmail `ValueError` instead. -/
theorem nonstring_email_zero_counterexample :
    create_user demoHash [] (.int 0) (Option.some "sample123") "" =
        Except.error CreateErr.missingEmail ∧
      create_superuser demoHash [] (.int 0) (Option.some "sample123") =
        Except.error CreateErr.missingEmail ∧
      CreateErr.missingEmail ≠ CreateErr.invalidEmailType ∧
      CreateErr.missingEmail.message ≠ "Email must be an string." := by
  refine ⟨rfl, rfl, by decide, by decide⟩

/-- C4, amended: every TRUTHY non-string email value makes `create_user`
and `create_superuser` fail with the InvalidEmailType error (message
"Email must be an string.") before any persistence attempt; a falsy
non-string value (such as the number 0) fails with MissingEmail
instead. -/
theorem nonstring_email_rejected (hashFn : String → String) (db : Store) (email : PyVal)
    (pwd : Option String) (name : String)
    (htruthy : email.truthy = true) (hstr : email.isStr = false) :
    create_user hashFn db email pwd name = Except.error CreateErr.invalidEmailType ∧
      create_superuser hashFn db email pwd = Except.error CreateErr.invalidEmailType := by
  have hc : create_user hashFn db email pwd name = Except.error CreateErr.invalidEmailType := by
    cases email with
    | str s => simp [PyVal.isStr] at hstr
    | int n => simp [create_user, htruthy]
    | none => simp [PyVal.truthy] at htruthy
  have hc0 : create_user hashFn db email pwd "" = Except.error CreateErr.invalidEmailType := by
    cases email with
    | str s => simp [PyVal.isStr] at hstr
    | int n => simp [create_user, htruthy]
    | none => simp [PyVal.truthy] at htruthy
  refine ⟨hc, ?_⟩
  unfold create_superuser
  rw [hc0]

/-- C4, witness: the truthy number 123 (the repository's own test input). -/
theorem nonstring_email_rejected_witness :
    create_user demoHash [] (.int 123) (Option.some "sample123") "" =
        Except.error CreateErr.invalidEmailType ∧
      create_superuser demoHash [] (.int 123) (Option.some "sample123") =
        Except.error CreateErr.invalidEmailType :=
  nonstring_email_rejected demoHash [] (.int 123) (Option.some "sample123") ""
    (by decide) (by decide)

/-- C5: `create_user` stores the supplied email with the local part's
casing preserved and the domain part lower-cased, and two supplied emails
differing only in domain letter-casing normalize identically. -/
theorem create_stores_domain_lowercased (l d1 d2 : String)
    (ht1 : strip (l ++ "@" ++ d1) = l ++ "@" ++ d1)
    (ht2 : strip (l ++ "@" ++ d2) = l ++ "@" ++ d2)
    (h1 : ∀ c ∈ d1.data, (c != '@') = true)
    (h2 : ∀ c ∈ d2.data, (c != '@') = true)
    (hlow : lowerString d1 = lowerString d2) :
    (∀ hashFn db pwd name u db2,
        create_user hashFn db (.str (l ++ "@" ++ d1)) pwd name = Except.ok (u, db2) →
          u.email = l ++ "@" ++ lowerString d1) ∧
      normalize_email (l ++ "@" ++ d1) = normalize_email (l ++ "@" ++ d2) := by
  constructor
  · intro hashFn db pwd name u db2 h
    obtain ⟨hu, _⟩ := create_user_ok_eq _ _ _ _ _ _ _ h
    rw [hu]
    exact normalize_email_concat l d1 ht1 h1
  · rw [normalize_email_concat l d1 ht1 h1, normalize_email_concat l d2 ht2 h2, hlow]

/-- C5, witness: the spec's own example pair, `Test2@Example.com` and
`Test2@EXAMPLE.COM`. -/
theorem create_stores_domain_lowercased_witness :
    (∀ hashFn db pwd name u db2,
        create_user hashFn db (.str ("Test2" ++ "@" ++ "Example.com")) pwd name =
            Except.ok (u, db2) →
          u.email = "Test2" ++ "@" ++ lowerString "Example.com") ∧
      normalize_email ("Test2" ++ "@" ++ "Example.com") =
        normalize_email ("Test2" ++ "@" ++ "EXAMPLE.COM") :=
  create_stores_domain_lowercased "Test2" "Example.com" "EXAMPLE.COM"
    (by decide) (by decide) (by decide) (by decide) (by decide)

/-- C6: `create_superuser` always returns an account with both `is_staff`
and `is_superuser` true, while `create_user` returns both false. -/
theorem elevate_sets_both_flags (hashFn : String → String) (db : Store) (email : PyVal)
    (pwd : Option String) :
    (∀ name u db2, create_user hashFn db email pwd name = Except.ok (u, db2) →
        u.is_staff = false ∧ u.is_superuser = false) ∧
      ∀ u db2, create_superuser hashFn db email pwd = Except.ok (u, db2) →
        u.is_staff = true ∧ u.is_superuser = true := by
  constructor
  · intro name u db2 h
    obtain ⟨s, rfl⟩ := create_user_ok_str _ _ _ _ _ _ _ h
    obtain ⟨hu, _⟩ := create_user_ok_eq _ _ _ _ _ _ _ h
    rw [hu]
    exact ⟨rfl, rfl⟩
  · intro u db2 h
    unfold create_superuser at h
    cases hc : create_user hashFn db email pwd "" with
    | error e => rw [hc] at h; cases h
    | ok p =>
        obtain ⟨u0, db1⟩ := p
        rw [hc] at h
        simp only [Except.ok.injEq, Prod.mk.injEq] at h
        obtain ⟨hu, _⟩ := h
        rw [← hu]
        exact ⟨rfl, rfl⟩

/-- C6, witness: a plain creation and an elevation on an empty store. -/
theorem elevate_sets_both_flags_witness :
    (demoCreated.is_staff = false ∧ demoCreated.is_superuser = false) ∧
      demoSuper.is_staff = true ∧ demoSuper.is_superuser = true :=
  ⟨(elevate_sets_both_flags demoHash [] (.str "test@example.com")
        (Option.some "testpass123")).1 "Test Name" demoCreated [demoCreated] (by decide),
    (elevate_sets_both_flags demoHash [] (.str "super@example.com")
        (Option.some "test123")).2 demoSuper [demoSuper] (by decide)⟩

/-- C7, counterexample. The claim covers EVERY secret shorter than 5
characters, but for the blank secret `""` (length 0) and equally for the
whitespace-only secret `"   "` (length 3) the serializer's required/blank
check — DRF trims `CharField` input before testing for blank — fires
instead of the min-length validator: the error message is
"This field may not be blank.", not the claimed one. Both calls still
fail and persist nothing. -/
theorem short_secret_blank_counterexample :
    (create_user_view demoHash [] ⟨"test@example.com", "", "Test Name"⟩).1 =
        Except.error [⟨"password", "This field may not be blank."⟩] ∧
      (create_user_view demoHash [] ⟨"test@example.com", "   ", "Test Name"⟩).1 =
        Except.error [⟨"password", "This field may not be blank."⟩] ∧
      FieldError.mk "password" "Ensure this field has at least 5 characters." ∉
        user_serializer_validate [] ⟨"test@example.com", "   ", "Test Name"⟩ ∧
      ("" : String).length < 5 ∧ ("   " : String).length < 5 := by
  refine ⟨rfl, rfl, by decide, by decide, by decide⟩

/-- C7, amended: for every creation request whose secret is non-blank
after whitespace trimming and whose trimmed secret is shorter than 5
characters, the view fails with a `password` field error carrying
"Ensure this field has at least 5 characters." and the store is
unchanged; a blank or whitespace-only secret also fails without
persisting, but with the blank-field message. -/
theorem short_secret_rejected (hashFn : String → String) (db : Store) (p : CreatePayload)
    (hshort : (strip p.password).length < 5)
    (hblank : (strip p.password).isEmpty = false) :
    (create_user_view hashFn db p).2 = db ∧
      FieldError.mk "password" "Ensure this field has at least 5 characters." ∈
        user_serializer_validate db p ∧
      ∃ errs, (create_user_view hashFn db p).1 = Except.error errs ∧
        FieldError.mk "password" "Ensure this field has at least 5 characters." ∈ errs := by
  have hmem : FieldError.mk "password" "Ensure this field has at least 5 characters." ∈
      user_serializer_validate db p := by
    unfold user_serializer_validate
    rw [hblank]
    simp [hshort]
  have hne : (user_serializer_validate db p).isEmpty = false := by
    cases he : (user_serializer_validate db p).isEmpty with
    | false => rfl
    | true =>
        rw [List.isEmpty_iff] at he
        rw [he] at hmem
        cases hmem
  constructor
  · unfold create_user_view
    rw [hne]
    simp
  · refine ⟨hmem, user_serializer_validate db p, ?_, hmem⟩
    unfold create_user_view
    rw [hne]
    simp

/-- C7, witness: the repository's own test payload with secret `"pw"` on an
empty store. -/
theorem short_secret_rejected_witness :
    (create_user_view demoHash [] ⟨"test@example.com", "pw", "Test Name"⟩).2 = [] ∧
      FieldError.mk "password" "Ensure this field has at least 5 characters." ∈
        user_serializer_validate [] ⟨"test@example.com", "pw", "Test Name"⟩ ∧
      ∃ errs, (create_user_view demoHash [] ⟨"test@example.com", "pw", "Test Name"⟩).1 =
          Except.error errs ∧
        FieldError.mk "password" "Ensure this field has at least 5 characters." ∈ errs :=
  short_secret_rejected demoHash [] ⟨"test@example.com", "pw", "Test Name"⟩
    (by decide) (by decide)

/-- C10: `create_user` with an absent password persists the account with
the unusable credential marker, and no candidate secret ever verifies
against it. -/
theorem create_without_password_unusable (hashFn : String → String) (db : Store)
    (email name : String) (hne : email.isEmpty = false)
    (hfresh : db.any (fun v => v.email == normalize_email email) = false) :
    ∃ u db2, create_user hashFn db (.str email) Option.none name = Except.ok (u, db2) ∧
      db2 = db ++ [u] ∧ u.password = StoredCred.unusable ∧
      ∀ cand, check_password hashFn cand u.password = false := by
  refine ⟨{ email := normalize_email email, name := name,
            password := StoredCred.unusable,
            is_active := true, is_staff := false, is_superuser := false }, _, ?_, rfl, rfl, ?_⟩
  · unfold create_user save
    simp [PyVal.truthy, hne, hfresh, set_password]
  · intro cand
    rfl

/-- C10, witness: creation without a password on an empty store. -/
theorem create_without_password_unusable_witness :
    ∃ u db2, create_user demoHash [] (.str "test@example.com") Option.none "Test Name" =
        Except.ok (u, db2) ∧
      db2 = [] ++ [u] ∧ u.password = StoredCred.unusable ∧
      ∀ cand, check_password demoHash cand u.password = false :=
  create_without_password_unusable demoHash [] "test@example.com" "Test Name"
    (by decide) (by decide)

/-- C3, counterexample. The claim says `update_self` leaves every field
other than name and credential unchanged, in particular `email`; but
`email` is one of the serializer's writable fields, so a PATCH carrying an
email is accepted and changes the stored email. -/
theorem update_self_changes_email_counterexample :
    manage_user_patch [demoCreated] demoCreated
        ⟨Option.some "other@example.com", Option.none, Option.none⟩ =
      Except.ok ({ demoCreated with email := "other@example.com" },
        [{ demoCreated with email := "other@example.com" }]) ∧
      "other@example.com" ≠ demoCreated.email := by
  refine ⟨by decide, by decide⟩

/-- C3, amended: a successful `update_self` never changes `is_active`,
`is_staff` or `is_superuser`, and when the patch carries no email the
stored email is unchanged as well; `email`, however, is a writable
serializer field, so a patch carrying one changes it. -/
theorem update_self_frame (db : Store) (u u2 : User) (db2 : Store) (p : UserPatch)
    (h : manage_user_patch db u p = Except.ok (u2, db2)) :
    u2.is_active = u.is_active ∧ u2.is_staff = u.is_staff ∧
      u2.is_superuser = u.is_superuser ∧
      (p.email = Option.none → u2.email = u.email) := by
  unfold manage_user_patch at h
  by_cases he : (user_patch_validate p).isEmpty
  · rw [he] at h
    simp only [if_true, Except.ok.injEq, Prod.mk.injEq] at h
    obtain ⟨hu, _⟩ := h
    subst hu
    obtain ⟨pe, pn, pp⟩ := p
    cases pe with
    | some e =>
        cases pn <;> cases pp <;>
          simp [user_serializer_update, trimPatch]
    | none =>
        cases pn <;> cases pp <;>
          simp [user_serializer_update, trimPatch]
  · simp only [Bool.not_eq_true] at he
    rw [he] at h
    simp at h

/-- C3, witness: the repository's own PATCH payload (name and password,
no email). -/
theorem update_self_frame_witness :
    demoUpdated.is_active = demoCreated.is_active ∧
      demoUpdated.is_staff = demoCreated.is_staff ∧
      demoUpdated.is_superuser = demoCreated.is_superuser ∧
      ((⟨Option.none, Option.some "Updated Name", Option.some "newpassword123"⟩ :
          UserPatch).email = Option.none →
        demoUpdated.email = demoCreated.email) :=
  update_self_frame [demoCreated] demoCreated demoUpdated [demoUpdated]
    ⟨Option.none, Option.some "Updated Name", Option.some "newpassword123"⟩ (by decide)

/-- C1, the code evaluated at the repository's own failing input: after
the self-service PATCH `name := "Updated Name"`, `password :=
"newpassword123"`, the serializer's default `update` assigns the plaintext
to the password column, so `check_password` rejects EVERY candidate — in
particular the new secret no longer verifies against the refreshed store,
contradicting the claim and `test_update_user_profile`. -/
theorem update_self_new_secret_does_not_verify (hashFn : String → String)
    (u u2 : User) (db2 : Store)
    (h : manage_user_patch [u] u
        ⟨Option.none, Option.some "Updated Name", Option.some "newpassword123"⟩ =
      Except.ok (u2, db2)) :
    u2.name = "Updated Name" ∧ u2.password = StoredCred.raw "newpassword123" ∧
      (∀ cand, check_password hashFn cand u2.password = false) ∧
      authenticate hashFn db2 u.email "newpassword123" = Option.none := by
  unfold manage_user_patch at h
  rw [show user_patch_validate
      ⟨Option.none, Option.some "Updated Name", Option.some "newpassword123"⟩ = []
    from rfl] at h
  rw [show trimPatch
        ⟨Option.none, Option.some "Updated Name", Option.some "newpassword123"⟩ =
      ⟨Option.none, Option.some "Updated Name", Option.some "newpassword123"⟩
    from by decide] at h
  simp only [List.isEmpty_nil, if_true, Except.ok.injEq, Prod.mk.injEq] at h
  obtain ⟨hu, hdb⟩ := h
  subst hu
  subst hdb
  refine ⟨rfl, rfl, fun cand => rfl, ?_⟩
  unfold authenticate saveUpdate
  simp [user_serializer_update, check_password]

/-- C2, the code evaluated against the invariant: `create_user` and
`create_superuser` always persist the hasher's output or the unusable
marker, but the self-service update stores the supplied plaintext
verbatim, which is neither — so the invariant over the in-scope
operation sequences fails at the update step. -/
theorem stored_credential_plaintext_on_update (hashFn : String → String) :
    (∀ db email pwd name u db2,
        create_user hashFn db email pwd name = Except.ok (u, db2) →
          hashedOrUnusable hashFn u.password) ∧
      (∀ db email pwd u db2,
        create_superuser hashFn db email pwd = Except.ok (u, db2) →
          hashedOrUnusable hashFn u.password) ∧
      (∀ u pw,
        (user_serializer_update u ⟨Option.none, Option.none, Option.some pw⟩).password =
          StoredCred.raw pw) ∧
      ∀ pw, ¬ hashedOrUnusable hashFn (StoredCred.raw pw) := by
  have hcreate : ∀ db email pwd name u db2,
      create_user hashFn db email pwd name = Except.ok (u, db2) →
        hashedOrUnusable hashFn u.password := by
    intro db email pwd name u db2 h
    obtain ⟨s, rfl⟩ := create_user_ok_str _ _ _ _ _ _ _ h
    obtain ⟨hu, _⟩ := create_user_ok_eq _ _ _ _ _ _ _ h
    rw [hu]
    cases pwd with
    | some pw => exact Or.inl ⟨pw, rfl⟩
    | none => exact Or.inr rfl
  refine ⟨hcreate, ?_, fun u pw => rfl, ?_⟩
  · intro db email pwd u db2 h
    unfold create_superuser at h
    cases hc : create_user hashFn db email pwd "" with
    | error e => rw [hc] at h; cases h
    | ok p =>
        obtain ⟨u0, db1⟩ := p
        rw [hc] at h
        simp only [Except.ok.injEq, Prod.mk.injEq] at h
        obtain ⟨hu, _⟩ := h
        rw [← hu]
        show hashedOrUnusable hashFn u0.password
        exact hcreate _ _ _ _ _ _ hc
  · intro pw hinv
    rcases hinv with ⟨s, hs⟩ | hun
    · cases hs
    · cases hun

/-- C9: a failed token issuance that reaches credential verification
always surfaces the one uniform message, and each of the three failure
causes — unknown email, wrong secret, inactive account — produces exactly
that error, so two failing runs are indistinguishable to the caller. -/
theorem token_failure_uniform (hashFn : String → String) (std accessStd : Claims)
    (db : Store) :
    (∀ email password m,
        issue hashFn std accessStd db email password =
            Except.error (IssueErr.authFailed m) →
          m = "No active account found with the given credentials") ∧
      (∀ email password, email.isEmpty = false → password.isEmpty = false →
        db.find? (fun v => v.email == email) = Option.none →
          issue hashFn std accessStd db email password =
            Except.error
              (IssueErr.authFailed "No active account found with the given credentials")) ∧
      (∀ email password u, email.isEmpty = false → password.isEmpty = false →
        db.find? (fun v => v.email == email) = Option.some u →
        check_password hashFn password u.password = false →
          issue hashFn std accessStd db email password =
            Except.error
              (IssueErr.authFailed "No active account found with the given credentials")) ∧
      ∀ email password u, email.isEmpty = false → password.isEmpty = false →
        db.find? (fun v => v.email == email) = Option.some u → u.is_active = false →
          issue hashFn std accessStd db email password =
            Except.error
              (IssueErr.authFailed "No active account found with the given credentials") := by
  refine ⟨?_, ?_, ?_, ?_⟩
  · intro email password m h
    unfold issue at h
    by_cases he : email.isEmpty = true
    · simp [he] at h
    · by_cases hp : password.isEmpty = true
      · simp [he, hp] at h
      · simp only [he, hp, Bool.false_eq_true, if_false] at h
        cases ha : authenticate hashFn db email password with
        | none =>
            rw [ha] at h
            simp only [Except.error.injEq, IssueErr.authFailed.injEq] at h
            exact h.symm
        | some u => rw [ha] at h; cases h
  · intro email password he hp hfind
    unfold issue authenticate
    rw [hfind]
    simp [he, hp]
  · intro email password u he hp hfind hcheck
    unfold issue authenticate
    rw [hfind]
    simp [he, hp, hcheck]
  · intro email password u he hp hfind hactive
    unfold issue authenticate
    rw [hfind]
    simp [he, hp, hactive]

/-- C1, witness: the test's own account and PATCH payload, on a
single-record store. -/
theorem update_self_new_secret_does_not_verify_witness :
    demoUpdated.name = "Updated Name" ∧
      demoUpdated.password = StoredCred.raw "newpassword123" ∧
      (∀ cand, check_password demoHash cand demoUpdated.password = false) ∧
      authenticate demoHash [demoUpdated] demoCreated.email "newpassword123" =
        Option.none :=
  update_self_new_secret_does_not_verify demoHash demoCreated demoUpdated
    [demoUpdated] (by decide)

/-- C9, witness: the three failure causes — unknown email, wrong secret,
inactive account — on one concrete store, each yielding the identical
uniform error. -/
theorem token_failure_uniform_witness :
    issue demoHash demoRefreshStd demoAccessStd [demoCreated, demoInactive]
        "missing@example.com" "whatever" =
        Except.error
          (IssueErr.authFailed "No active account found with the given credentials") ∧
      issue demoHash demoRefreshStd demoAccessStd [demoCreated, demoInactive]
        "test@example.com" "wrongpass" =
        Except.error
          (IssueErr.authFailed "No active account found with the given credentials") ∧
      issue demoHash demoRefreshStd demoAccessStd [demoCreated, demoInactive]
        "inactive@example.com" "testpass123" =
        Except.error
          (IssueErr.authFailed "No active account found with the given credentials") :=
  ⟨(token_failure_uniform demoHash demoRefreshStd demoAccessStd
        [demoCreated, demoInactive]).2.1 "missing@example.com" "whatever"
      (by decide) (by decide) (by decide),
    (token_failure_uniform demoHash demoRefreshStd demoAccessStd
        [demoCreated, demoInactive]).2.2.1 "test@example.com" "wrongpass" demoCreated
      (by decide) (by decide) (by decide) (by decide),
    (token_failure_uniform demoHash demoRefreshStd demoAccessStd
        [demoCreated, demoInactive]).2.2.2 "inactive@example.com" "testpass123"
      demoInactive (by decide) (by decide) (by decide) (by decide)⟩

/-- C8: a successful token issuance yields a pair in which BOTH the
refresh and the access payload carry the custom claims `user_email` and
`user_name`, equal to the authenticated account's current email and
display name (the standard payloads `std`/`accessStd` of the library do
not already use those two claim names). -/
theorem token_pair_carries_custom_claims (hashFn : String → String)
    (std accessStd : Claims) (db : Store) (email password : String) (u : User)
    (r : TokenPairData)
    (hstd1 : ∀ kv ∈ std, kv.1 ≠ "user_email")
    (hstd2 : ∀ kv ∈ std, kv.1 ≠ "user_name")
    (hauth : authenticate hashFn db email password = Option.some u)
    (hr : issue hashFn std accessStd db email password = Except.ok r) :
    getClaim r.refresh "user_email" = Option.some u.email ∧
      getClaim r.refresh "user_name" = Option.some u.name ∧
      getClaim r.access "user_email" = Option.some u.email ∧
      getClaim r.access "user_name" = Option.some u.name := by
  unfold issue at hr
  by_cases he : email.isEmpty = true
  · simp [he] at hr
  · by_cases hp : password.isEmpty = true
    · simp [he, hp] at hr
    · simp only [he, hp, Bool.false_eq_true, if_false] at hr
      rw [hauth] at hr
      simp only [Except.ok.injEq] at hr
      subst hr
      have hne : ("user_email" : String) ≠ "user_name" := by decide
      have hset1 : setClaim std "user_email" u.email = std ++ [("user_email", u.email)] :=
        setClaim_not_mem _ _ _ hstd1
      have hall2 : ∀ kv ∈ std ++ [("user_email", u.email)], kv.1 ≠ "user_name" := by
        intro kv hkv
        rcases List.mem_append.mp hkv with h1 | h1
        · exact hstd2 kv h1
        · simp only [List.mem_singleton] at h1
          subst h1
          exact hne
      have hrefresh : get_token std u =
          (std ++ [("user_email", u.email)]) ++ [("user_name", u.name)] := by
        unfold get_token
        rw [hset1, setClaim_not_mem _ _ _ hall2]
      refine ⟨?_, ?_, ?_, ?_⟩
      · show getClaim (get_token std u) "user_email" = Option.some u.email
        unfold get_token
        rw [getClaim_setClaim_other _ _ _ _ hne, getClaim_setClaim_same]
      · show getClaim (get_token std u) "user_name" = Option.some u.name
        unfold get_token
        rw [getClaim_setClaim_same]
      · show getClaim (access_token accessStd (get_token std u)) "user_email" =
          Option.some u.email
        unfold access_token
        rw [hrefresh, List.filter_append, List.filter_append]
        rw [show List.filter
            (fun kv : String × String =>
              kv.1 != "token_type" && kv.1 != "exp" && kv.1 != "jti")
            [("user_email", u.email)] = [("user_email", u.email)] from rfl]
        rw [show List.filter
            (fun kv : String × String =>
              kv.1 != "token_type" && kv.1 != "exp" && kv.1 != "jti")
            [("user_name", u.name)] = [("user_name", u.name)] from rfl]
        rw [mergeClaims_append, mergeClaims_append]
        rw [show ∀ acc : Claims, mergeClaims acc [("user_name", u.name)] =
            setClaim acc "user_name" u.name from fun acc => rfl]
        rw [show ∀ acc : Claims, mergeClaims acc [("user_email", u.email)] =
            setClaim acc "user_email" u.email from fun acc => rfl]
        rw [getClaim_setClaim_other _ _ _ _ hne, getClaim_setClaim_same]
      · show getClaim (access_token accessStd (get_token std u)) "user_name" =
          Option.some u.name
        unfold access_token
        rw [hrefresh, List.filter_append, List.filter_append]
        rw [show List.filter
            (fun kv : String × String =>
              kv.1 != "token_type" && kv.1 != "exp" && kv.1 != "jti")
            [("user_email", u.email)] = [("user_email", u.email)] from rfl]
        rw [show List.filter
            (fun kv : String × String =>
              kv.1 != "token_type" && kv.1 != "exp" && kv.1 != "jti")
            [("user_name", u.name)] = [("user_name", u.name)] from rfl]
        rw [mergeClaims_append, mergeClaims_append]
        rw [show ∀ acc : Claims, mergeClaims acc [("user_name", u.name)] =
            setClaim acc "user_name" u.name from fun acc => rfl]
        rw [getClaim_setClaim_same]

/-- C8, witness: a successful issuance for the test account, with the
library's standard refresh and access payloads. -/
theorem token_pair_carries_custom_claims_witness :
    getClaim demoPair.refresh "user_email" = Option.some demoCreated.email ∧
      getClaim demoPair.refresh "user_name" = Option.some demoCreated.name ∧
      getClaim demoPair.access "user_email" = Option.some demoCreated.email ∧
      getClaim demoPair.access "user_name" = Option.some demoCreated.name :=
  token_pair_carries_custom_claims demoHash demoRefreshStd demoAccessStd [demoCreated]
    "test@example.com" "testpass123" demoCreated demoPair
    (by decide) (by decide) (by decide) (by decide)

end RecipeApi
